import Mathlib

/-!
Verification of the Triangle component of the scikit-spatial geometric
primitive algebra (`src/skspatial/objects/triangle.py`).

Coordinates are modelled exactly, by rational numbers; derived scalar
quantities (distances, areas, angles) live in `ℝ`.  The collaborator
classes `Point`, `Vector`, `Line` and `Points` are not part of the source
tree under study; the operations of theirs that `Triangle` uses are
modelled from the specification and marked `Modelled from the spec:` in
their doc comments.  Fallible Python methods are embedded as
`Except PyError`-valued functions, with `PyError` distinguishing the
exception classes that matter (`ValueError`, `AttributeError`,
`TypeError`).
-/

namespace SkSpatial

/-- A point (or vector) is an ordered tuple of rational coordinates;
its dimension is the length of the list. -/
abbrev Pt := List ℚ

/-- Coordinate access with the convention that coordinates beyond the
length are zero (used for promoting 2D vectors to 3D). -/
def coord (u : Pt) (i : ℕ) : ℚ := u.getD i 0

/-- Componentwise subtraction `q - p` (the vector from `p` to `q`). -/
def vsub (q p : Pt) : Pt := List.zipWith (· - ·) q p

/-- Componentwise addition. -/
def vadd (u v : Pt) : Pt := List.zipWith (· + ·) u v

/-- Scalar multiple of a vector. -/
def smul (k : ℚ) (u : Pt) : Pt := u.map (fun x => k * x)

/-- Dot product of two coordinate lists. -/
def dot (u v : Pt) : ℚ := (List.zipWith (· * ·) u v).sum

/-- Sum of the squares of the coordinates (the squared Euclidean norm). -/
def sumSq (u : Pt) : ℚ := (u.map (fun x => x ^ 2)).sum

/-- A vector in 3-space, used for cross products. -/
abbrev V3 := ℚ × ℚ × ℚ

/-- Promotion of a (≤3)-dimensional coordinate list to 3D, padding with
zeros ("treating 2D input as 3D with a zero third coordinate"). -/
def prom (u : Pt) : V3 := (coord u 0, coord u 1, coord u 2)

/-- The 3D cross product. -/
def cross3 (u v : V3) : V3 :=
  (u.2.1 * v.2.2 - u.2.2 * v.2.1,
   u.2.2 * v.1 - u.1 * v.2.2,
   u.1 * v.2.1 - u.2.1 * v.1)

/-- Dot product in 3-space. -/
def dot3 (u v : V3) : ℚ := u.1 * v.1 + u.2.1 * v.2.1 + u.2.2 * v.2.2

/-- Squared Euclidean norm in 3-space. -/
def normSq3 (u : V3) : ℚ := dot3 u u

/-- Componentwise negation in 3-space. -/
def neg3 (u : V3) : V3 := (-u.1, -u.2.1, -u.2.2)

/-- The 2×2 minor of the pair of vectors `u, v` at coordinate indices
`i, j`.  Two vectors are linearly dependent iff all these minors vanish. -/
def minor (u v : Pt) (i j : ℕ) : ℚ := coord u i * coord v j - coord u j * coord v i

/-- Modelled from the spec: two vectors are parallel when they are
linearly dependent, which over exact arithmetic is the vanishing of all
2×2 minors of the pair.  This is the exact (zero-tolerance) reading of the
spec's tolerance-based parallelism test. -/
def parallelB (u v : Pt) : Bool :=
  decide (∀ i ∈ List.range (max u.length v.length),
          ∀ j ∈ List.range (max u.length v.length), minor u v i j = 0)

/-- Modelled from the spec: the `Points.are_collinear` test for three
points — all pairwise vectors from the first point are parallel. -/
def are_collinear (pa pb pc : Pt) : Bool := parallelB (vsub pb pa) (vsub pc pa)

/-- The Python exception classes relevant to the Triangle component. -/
inductive PyError where
  | valueError (msg : String)
  | attributeError (nm : String)
  | typeError (nm : String)
deriving DecidableEq, Repr

/-- Modelled from the spec: `Point.distance_point` — the Euclidean
distance between two points. -/
noncomputable def distance (p q : Pt) : ℝ := Real.sqrt ((sumSq (vsub q p) : ℚ) : ℝ)

/-- Modelled from the spec: `Vector.cross` — the 3D cross product, with
2D input treated as 3D with a zero third coordinate; `numpy.cross`
rejects vectors whose dimension is not 2 or 3. -/
def vcross (u v : Pt) : Except PyError V3 :=
  if (u.length = 2 ∨ u.length = 3) ∧ (v.length = 2 ∨ v.length = 3) then
    .ok (cross3 (prom u) (prom v))
  else
    .error (.valueError "incompatible dimensions for cross product (dimension must be 2 or 3)")

/-- A line is a `(point, direction)` pair. -/
structure Line where
  point : Pt
  direction : Pt
deriving DecidableEq, Repr

/-- Modelled from the spec: `Line.from_points` — the line through two
points, whose direction must be non-zero (a zero direction is a
degenerate input and fails). -/
def Line.from_points (p q : Pt) : Except PyError Line :=
  if (vsub q p).all (fun x => decide (x = 0)) then
    .error (.valueError "The direction must not be the zero vector.")
  else
    .ok ⟨p, vsub q p⟩

/-- Modelled from the spec: `Line.project_point` — the foot of the
perpendicular from a point to the line, `point + ((q - point)·d / d·d) d`. -/
def Line.project_point (l : Line) (q : Pt) : Pt :=
  vadd l.point (smul (dot (vsub q l.point) l.direction / dot l.direction l.direction) l.direction)

/-- Modelled from the spec: `Line.intersect_line` — the lines must be
coplanar (directions and connecting vector linearly dependent) and not
parallel; the intersection point is then
`p₁ + ((((p₂-p₁) × d₂) · (d₁ × d₂)) / ‖d₁ × d₂‖²) d₁`. -/
def Line.intersect_line (l1 l2 : Line) : Except PyError Pt := do
  let dcross ← vcross l1.direction l2.direction
  let vector_ab := vsub l2.point l1.point
  if dot3 dcross (prom vector_ab) ≠ 0 then
    .error (.valueError "The lines must be coplanar.")
  else if dcross = ((0 : ℚ), (0 : ℚ), (0 : ℚ)) then
    .error (.valueError "The lines must not be parallel.")
  else do
    let num_cross ← vcross vector_ab l2.direction
    .ok (vadd l1.point (smul (dot3 num_cross dcross / normSq3 dcross) l1.direction))

/-- The triangle data: three vertices (`Triangle.init` below is the
validating constructor from the source's `__init__`). -/
structure Triangle where
  point_a : Pt
  point_b : Pt
  point_c : Pt
deriving DecidableEq, Repr

/-- `self.dimension`, set by `__init__` to the dimension of `point_a`. -/
def Triangle.dimension (t : Triangle) : ℕ := t.point_a.length

/-- `Triangle.__init__`: checks, in order, that the three points share a
dimension (else `ValueError` "The points must have the same dimension."),
then that they are not collinear (else `ValueError` "The points must not
be collinear."). -/
def Triangle.init (pa pb pc : Pt) : Except PyError Triangle :=
  if ¬(pa.length = pb.length ∧ pb.length = pc.length) then
    .error (.valueError "The points must have the same dimension.")
  else if are_collinear pa pb pc then
    .error (.valueError "The points must not be collinear.")
  else
    .ok ⟨pa, pb, pc⟩

/-- The attributes of the `Triangle` class and of its instances, for the
`getattr` dispatch in `multiple`.  The class defines no attribute named
`length`. -/
def Triangle.attrNames : List String :=
  ["point_a", "point_b", "point_c", "dimension",
   "multiple", "normal", "area", "points", "lines",
   "side_length", "side_lengths", "angle", "altitude", "orthocenter",
   "classify", "is_right", "plot_2d", "plot_3d", "plotter"]

/-- `Triangle.side_length`: side `a` is `distance(B, C)`, side `b` is
`distance(A, C)`, side `c` is `distance(A, B)`; any other label raises
`ValueError`. -/
noncomputable def Triangle.side_length (t : Triangle) (side : Char) : Except PyError ℝ :=
  if side = 'a' then .ok (distance t.point_b t.point_c)
  else if side = 'b' then .ok (distance t.point_a t.point_c)
  else if side = 'c' then .ok (distance t.point_a t.point_b)
  else .error (.valueError "The side must be 'a', 'b', or 'c'.")

/-- `Triangle.multiple(name_method, inputs)`: `getattr(self, name_method)`
followed by mapping the resulting method over `inputs`.  A name that is
not an attribute of the object makes `getattr` raise `AttributeError`.
Among the attributes, `side_length` is the only scalar-valued method of a
single character argument that the source ever targets through `multiple`
(under its correct name); invoking any other attribute with a character
argument would raise `TypeError`, and no source path does so. -/
noncomputable def Triangle.multiple (t : Triangle) (name_method : String) (inputs : List Char) :
    Except PyError (List ℝ) :=
  if name_method = "side_length" then inputs.mapM (fun x => t.side_length x)
  else if Triangle.attrNames.contains name_method then .error (.typeError name_method)
  else .error (.attributeError name_method)

/-- `math.acos`: raises a math-domain `ValueError` when the argument is
outside `[-1, 1]`, with no clamping. -/
noncomputable def pyAcos (x : ℝ) : Except PyError ℝ :=
  if x < -1 ∨ 1 < x then .error (.valueError "math domain error")
  else .ok (Real.arccos x)

/-- `Triangle.angle(vertex)`: unpacks `self.multiple('length', 'abc')` and
applies the law of cosines for the requested vertex, passing the cosine
argument to `math.acos` unclamped; an unrecognized vertex raises
`ValueError`. -/
noncomputable def Triangle.angle (t : Triangle) (vertex : Char) : Except PyError ℝ := do
  let lengths ← t.multiple "length" ['a', 'b', 'c']
  match lengths with
  | [a, b, c] =>
    if vertex = 'A' then pyAcos ((b ^ 2 + c ^ 2 - a ^ 2) / (2 * b * c))
    else if vertex = 'B' then pyAcos ((a ^ 2 + c ^ 2 - b ^ 2) / (2 * a * c))
    else if vertex = 'C' then pyAcos ((a ^ 2 + b ^ 2 - c ^ 2) / (2 * a * b))
    else .error (.valueError "The vertex must be 'A', 'B', or 'C'.")
  | _ => .error (.valueError "not enough values to unpack")

/-- `math.isclose(a, b, rel_tol, abs_tol)`:
`|a - b| ≤ max(rel_tol * max(|a|, |b|), abs_tol)`. -/
def isclose (a b relTol absTol : ℝ) : Prop :=
  |a - b| ≤ max (relTol * max |a| |b|) absTol

open Classical in
/-- `Triangle.classify`: counts the unordered pairs of
`self.multiple('length', 'abc')` that are close within the tolerances;
3 close pairs give "equilateral", exactly 1 gives "isosceles", and the
remaining counts fall through to "scalene". -/
noncomputable def Triangle.classify (t : Triangle) (relTol absTol : ℝ) :
    Except PyError String := do
  let lengths ← t.multiple "length" ['a', 'b', 'c']
  match lengths with
  | [a, b, c] =>
    let nPairsClose : ℕ :=
      (if isclose a b relTol absTol then 1 else 0) +
      (if isclose a c relTol absTol then 1 else 0) +
      (if isclose b c relTol absTol then 1 else 0)
    if nPairsClose = 3 then .ok "equilateral"
    else if nPairsClose = 1 then .ok "isosceles"
    else .ok "scalene"
  | _ => .error (.valueError "not enough values to unpack")

/-- Ascending sort of three reals, for `sorted` in `is_right`: the
smallest, the remaining middle value, and the largest. -/
noncomputable def sort3 (a b c : ℝ) : ℝ × ℝ × ℝ :=
  (min a (min b c), a + b + c - min a (min b c) - max a (max b c), max a (max b c))

open Classical in
/-- `Triangle.is_right`: sorts the three lengths of
`self.multiple('length', 'abc')` ascending as `(a, b, c)` and returns
`isclose(a² + b², c²)` under the tolerances. -/
noncomputable def Triangle.is_right (t : Triangle) (relTol absTol : ℝ) :
    Except PyError Bool := do
  let lengths ← t.multiple "length" ['a', 'b', 'c']
  match lengths with
  | [x, y, z] =>
    let s := sort3 x y z
    .ok (if isclose (s.1 ^ 2 + s.2.1 ^ 2) (s.2.2 ^ 2) relTol absTol then true else false)
  | _ => .error (.valueError "not enough values to unpack")

/-- `Triangle.normal`: the cross product of `vector_ab = B - A` with
`vector_ac = C - A`. -/
def Triangle.normal (t : Triangle) : Except PyError V3 :=
  vcross (vsub t.point_b t.point_a) (vsub t.point_c t.point_a)

/-- `Triangle.area`: `0.5 * self.normal().norm()`. -/
noncomputable def Triangle.area (t : Triangle) : Except PyError ℝ :=
  (t.normal).map (fun n => 0.5 * Real.sqrt ((normSq3 n : ℚ) : ℝ))

/-- `Triangle.lines`: the lines AB, BC, CA of the triangle. -/
def Triangle.lines (t : Triangle) : Except PyError (Line × Line × Line) := do
  let line_ab ← Line.from_points t.point_a t.point_b
  let line_bc ← Line.from_points t.point_b t.point_c
  let line_ca ← Line.from_points t.point_c t.point_a
  .ok (line_ab, line_bc, line_ca)

/-- `Triangle.altitude(vertex)`: the line from the vertex to its
projection onto the line through the other two vertices; an unrecognized
vertex raises `ValueError`. -/
def Triangle.altitude (t : Triangle) (vertex : Char) : Except PyError Line := do
  let ls ← t.lines
  let line_ab := ls.1
  let line_bc := ls.2.1
  let line_ca := ls.2.2
  if vertex = 'A' then Line.from_points t.point_a (line_bc.project_point t.point_a)
  else if vertex = 'B' then Line.from_points t.point_b (line_ca.project_point t.point_b)
  else if vertex = 'C' then Line.from_points t.point_c (line_ab.project_point t.point_c)
  else .error (.valueError "The vertex must be 'A', 'B', or 'C'.")

/-- `Triangle.orthocenter`: the intersection of the altitudes from
vertices A and B. -/
def Triangle.orthocenter (t : Triangle) : Except PyError Pt := do
  let line_alt_a ← t.altitude 'A'
  let line_alt_b ← t.altitude 'B'
  line_alt_a.intersect_line line_alt_b

/-- The doctest triangle `Triangle([0, 0], [1, 0], [0, 1])`. -/
def triDoc : Triangle := ⟨[0, 0], [1, 0], [0, 1]⟩

/-- Componentwise subtraction in 3-space. -/
def sub3 (u v : V3) : V3 := (u.1 - v.1, u.2.1 - v.2.1, u.2.2 - v.2.2)

/-! ### Helper lemmas -/

lemma length_vsub (q p : Pt) : (vsub q p).length = min q.length p.length :=
  List.length_zipWith ..

lemma coord_vsub (q p : Pt) (h : q.length = p.length) (i : ℕ) :
    coord (vsub q p) i = coord q i - coord p i := by
  induction q generalizing p i with
  | nil =>
    cases p with
    | nil => simp [vsub, coord]
    | cons y ys => simp at h
  | cons x xs ih =>
    cases p with
    | nil => simp at h
    | cons y ys =>
      cases i with
      | zero => simp [vsub, coord]
      | succ n =>
        have hlen : xs.length = ys.length := by simpa using h
        simpa [vsub, coord] using ih ys hlen n

lemma prom_vsub (q p : Pt) (h : q.length = p.length) :
    prom (vsub q p) = sub3 (prom q) (prom p) := by
  simp [prom, sub3, coord_vsub q p h]

lemma cross3_anticomm (u v : V3) : cross3 v u = neg3 (cross3 u v) := by
  simp only [cross3, neg3, Prod.mk.injEq]
  refine ⟨by ring, by ring, by ring⟩

lemma cross3_sub_swap_first (a b c : V3) :
    cross3 (sub3 a b) (sub3 c b) = neg3 (cross3 (sub3 b a) (sub3 c a)) := by
  obtain ⟨a1, a2, a3⟩ := a
  obtain ⟨b1, b2, b3⟩ := b
  obtain ⟨c1, c2, c3⟩ := c
  simp only [cross3, sub3, neg3, Prod.mk.injEq]
  refine ⟨by ring, by ring, by ring⟩

lemma cross3_sub_swap_outer (a b c : V3) :
    cross3 (sub3 b c) (sub3 a c) = neg3 (cross3 (sub3 b a) (sub3 c a)) := by
  obtain ⟨a1, a2, a3⟩ := a
  obtain ⟨b1, b2, b3⟩ := b
  obtain ⟨c1, c2, c3⟩ := c
  simp only [cross3, sub3, neg3, Prod.mk.injEq]
  refine ⟨by ring, by ring, by ring⟩

lemma parallelB_eq_true_iff (u v : Pt) :
    parallelB u v = true ↔
      ∀ i < max u.length v.length, ∀ j < max u.length v.length, minor u v i j = 0 := by
  simp [parallelB, List.mem_range]

lemma parallelB_true_of_left_zero (u v : Pt) (h : ∀ i, coord u i = 0) :
    parallelB u v = true := by
  rw [parallelB_eq_true_iff]
  intro i _ j _
  simp [minor, h]

lemma parallelB_true_of_right_zero (u v : Pt) (h : ∀ i, coord v i = 0) :
    parallelB u v = true := by
  rw [parallelB_eq_true_iff]
  intro i _ j _
  simp [minor, h]

lemma parallelB_self_true (u : Pt) : parallelB u u = true := by
  rw [parallelB_eq_true_iff]
  intro i _ j _
  simp [minor, mul_comm]

lemma cross3_prom_ne_zero (u v : Pt) (hu : u.length ≤ 3) (hv : v.length ≤ 3)
    (h : parallelB u v = false) :
    cross3 (prom u) (prom v) ≠ ((0 : ℚ), (0 : ℚ), (0 : ℚ)) := by
  intro hc
  suffices hp : parallelB u v = true by simp [hp] at h
  rw [parallelB_eq_true_iff]
  intro i hi j hj
  have hi3 : i < 3 := lt_of_lt_of_le hi (by omega)
  have hj3 : j < 3 := lt_of_lt_of_le hj (by omega)
  simp only [cross3, prom, Prod.mk.injEq] at hc
  obtain ⟨h1, h2, h3⟩ := hc
  interval_cases i <;> interval_cases j <;> simp only [minor, coord] at * <;> linarith

lemma normSq3_pos (n : V3) (h : n ≠ ((0 : ℚ), (0 : ℚ), (0 : ℚ))) : 0 < normSq3 n := by
  obtain ⟨x, y, z⟩ := n
  by_contra hle
  push_neg at hle
  simp only [normSq3, dot3] at hle
  apply h
  have hx : x * x = 0 := le_antisymm (by nlinarith [mul_self_nonneg y, mul_self_nonneg z])
    (mul_self_nonneg x)
  have hy : y * y = 0 := le_antisymm (by nlinarith [mul_self_nonneg x, mul_self_nonneg z])
    (mul_self_nonneg y)
  have hz : z * z = 0 := le_antisymm (by nlinarith [mul_self_nonneg x, mul_self_nonneg y])
    (mul_self_nonneg z)
  simp [mul_self_eq_zero.mp hx, mul_self_eq_zero.mp hy, mul_self_eq_zero.mp hz]

lemma sumSq_nonneg (u : Pt) : 0 ≤ sumSq u := by
  induction u with
  | nil => simp [sumSq]
  | cons x r ih =>
    simp only [sumSq, List.map_cons, List.sum_cons] at *
    have := sq_nonneg x
    linarith

lemma sumSq_pos (u : Pt) (i : ℕ) (h : coord u i ≠ 0) : 0 < sumSq u := by
  induction u generalizing i with
  | nil => simp [coord] at h
  | cons x r ih =>
    cases i with
    | zero =>
      simp only [coord, List.getD_cons_zero] at h
      simp only [sumSq, List.map_cons, List.sum_cons]
      have h1 : 0 < x ^ 2 := by positivity
      have h2 := sumSq_nonneg r
      simp only [sumSq] at h2
      linarith
    | succ n =>
      have hr : coord r n ≠ 0 := by simpa [coord] using h
      have := ih n hr
      simp only [sumSq, List.map_cons, List.sum_cons] at *
      have := sq_nonneg x
      linarith

lemma eq_of_coord_eq (p q : Pt) (hl : p.length = q.length)
    (h : ∀ i, coord p i = coord q i) : p = q := by
  induction p generalizing q with
  | nil =>
    cases q with
    | nil => rfl
    | cons y ys => simp at hl
  | cons x xs ih =>
    cases q with
    | nil => simp at hl
    | cons y ys =>
      have h0 := h 0
      simp only [coord, List.getD_cons_zero] at h0
      rw [h0]
      congr 1
      exact ih ys (by simpa using hl) (fun i => by simpa [coord] using h (i + 1))

lemma distance_pos (p q : Pt) (hl : p.length = q.length) (hne : p ≠ q) :
    0 < distance p q := by
  unfold distance
  apply Real.sqrt_pos.mpr
  have hex : ¬ ∀ i, coord p i = coord q i := fun hall => hne (eq_of_coord_eq p q hl hall)
  push_neg at hex
  obtain ⟨i, hi⟩ := hex
  have hv : coord (vsub q p) i ≠ 0 := by
    rw [coord_vsub q p hl.symm i]
    intro hz
    exact hi (sub_eq_zero.mp hz).symm
  have := sumSq_pos (vsub q p) i hv
  exact_mod_cast this

lemma init_ok_iff (pa pb pc : Pt) (t : Triangle) :
    Triangle.init pa pb pc = .ok t ↔
      ((pa.length = pb.length ∧ pb.length = pc.length) ∧
       are_collinear pa pb pc = false ∧ t = ⟨pa, pb, pc⟩) := by
  unfold Triangle.init
  by_cases h1 : pa.length = pb.length ∧ pb.length = pc.length
  · by_cases h2 : are_collinear pa pb pc
    · simp [h1, h2]
    · simp only [Bool.not_eq_true] at h2
      simp only [h1, h2, not_true_eq_false, not_false_eq_true, and_true, true_and,
        if_true, if_false, Bool.false_eq_true, ite_false, ite_true, not_and]
      constructor
      · intro h
        cases h
        rfl
      · intro h
        rw [h]
  · simp [h1]

lemma are_collinear_eq_false (pa pb pc : Pt) (i j : ℕ)
    (hi : i < max (vsub pb pa).length (vsub pc pa).length)
    (hj : j < max (vsub pb pa).length (vsub pc pa).length)
    (hm : minor (vsub pb pa) (vsub pc pa) i j ≠ 0) :
    are_collinear pa pb pc = false := by
  simp only [are_collinear, parallelB, decide_eq_false_iff_not]
  intro h
  exact hm (h i (List.mem_range.mpr hi) j (List.mem_range.mpr hj))

lemma two_le_length_of_init_ok (pa pb pc : Pt) (t : Triangle)
    (h : Triangle.init pa pb pc = .ok t) : 2 ≤ pa.length := by
  obtain ⟨⟨hab, hbc⟩, hcol, _⟩ := (init_ok_iff pa pb pc t).mp h
  by_contra hlt
  push_neg at hlt
  suffices hp : parallelB (vsub pb pa) (vsub pc pa) = true by
    simp [are_collinear, hp] at hcol
  rw [parallelB_eq_true_iff]
  intro i hi j hj
  have hmax : max (vsub pb pa).length (vsub pc pa).length ≤ 1 := by
    simp only [length_vsub]
    omega
  have hij : i = 0 ∧ j = 0 := by omega
  rw [hij.1, hij.2]
  simp [minor, mul_comm]

/-- `Triangle.init` succeeds on the doctest triangle. -/
lemma initDoc_ok : Triangle.init [0, 0] [1, 0] [0, 1] = .ok triDoc := by
  rw [init_ok_iff]
  refine ⟨by norm_num, ?_, rfl⟩
  apply are_collinear_eq_false _ _ _ 0 1 <;> norm_num [vsub, minor, coord]

/-! ### Claim theorems -/

/-- C1: on the doctest triangle `Triangle([0, 0], [1, 0], [0, 1])`, whose
doctests expect `angle('A') ≈ 1.571` etc., `angle` does not return the
law-of-cosines value at any vertex: it raises
`AttributeError: 'Triangle' object has no attribute 'length'`, because it
dispatches `self.multiple('length', 'abc')` and the class defines
`side_length`, not `length`. -/
theorem C1_angle_raises_attribute_error :
    triDoc.angle 'A' = .error (.attributeError "length") ∧
    triDoc.angle 'B' = .error (.attributeError "length") ∧
    triDoc.angle 'C' = .error (.attributeError "length") :=
  ⟨rfl, rfl, rfl⟩

/-- C2: for every triangle and every vertex label, `angle` raises
`AttributeError("length")` before any cosine argument is formed, so no
clamping into `[-1, 1]` is ever performed; the transcription of the body
moreover passes the cosine argument to `math.acos` unclamped. -/
theorem C2_angle_never_clamps (t : Triangle) (vertex : Char) :
    t.angle vertex = .error (.attributeError "length") :=
  rfl

/-- C3: for every triangle and any tolerance options, `classify` does not
count close side-length pairs: it raises `AttributeError("length")` from
`self.multiple('length', 'abc')`, contradicting its own doctests
(`'isosceles'`, `'equilateral'`, ...). -/
theorem C3_classify_raises_attribute_error (t : Triangle) (relTol absTol : ℝ) :
    t.classify relTol absTol = .error (.attributeError "length") :=
  rfl

/-- C4: for every triangle and any tolerance options, `is_right` does not
test the Pythagorean relation: it raises `AttributeError("length")` from
`self.multiple('length', 'abc')`, contradicting its own doctests. -/
theorem C4_is_right_raises_attribute_error (t : Triangle) (relTol absTol : ℝ) :
    t.is_right relTol absTol = .error (.attributeError "length") :=
  rfl

/-- C5: `side_length` and `altitude` raise the documented invalid-argument
`ValueError` on labels outside their valid sets, but `angle` violates the
claimed behavior: it raises `AttributeError("length")` both on the invalid
label `'D'` (the doctest expects `ValueError: The vertex must be 'A', 'B',
or 'C'.`) and on the valid label `'A'` (the claim requires no error). -/
theorem C5_label_validation :
    triDoc.side_length 'd' = .error (.valueError "The side must be 'a', 'b', or 'c'.") ∧
    triDoc.altitude 'D' = .error (.valueError "The vertex must be 'A', 'B', or 'C'.") ∧
    triDoc.angle 'D' = .error (.attributeError "length") ∧
    triDoc.angle 'A' = .error (.attributeError "length") := by
  refine ⟨rfl, ?_, rfl, rfl⟩
  simp [Triangle.altitude, Triangle.lines, Line.from_points, vsub, triDoc,
    bind, Except.bind]

/-- C6: `Triangle.__init__` validates in a fixed order: the dimension
error occurs exactly when the three dimensions do not all agree; the
collinearity error occurs exactly when dimensions agree and the points are
collinear per the (spec-modelled) `Points` collinearity test; construction
succeeds exactly when both checks pass, yielding the three vertices
unchanged.  The two concrete failure examples of the spec are included. -/
theorem C6_init_validation_order (pa pb pc : Pt) :
    (Triangle.init pa pb pc = .error (.valueError "The points must have the same dimension.") ↔
      ¬(pa.length = pb.length ∧ pb.length = pc.length)) ∧
    (Triangle.init pa pb pc = .error (.valueError "The points must not be collinear.") ↔
      ((pa.length = pb.length ∧ pb.length = pc.length) ∧ are_collinear pa pb pc = true)) ∧
    (∀ t : Triangle, Triangle.init pa pb pc = .ok t ↔
      ((pa.length = pb.length ∧ pb.length = pc.length) ∧ are_collinear pa pb pc = false ∧
        t = ⟨pa, pb, pc⟩)) ∧
    Triangle.init [0, 0] [0, 1] [0, 2] =
      .error (.valueError "The points must not be collinear.") ∧
    Triangle.init [0, 0] [1, 0] [0, 1, 0] =
      .error (.valueError "The points must have the same dimension.") := by
  refine ⟨?_, ?_, fun t => init_ok_iff pa pb pc t, ?_, ?_⟩
  · unfold Triangle.init
    by_cases h1 : pa.length = pb.length ∧ pb.length = pc.length
    · by_cases h2 : are_collinear pa pb pc <;> simp [h1, h2]
    · simp [h1]
  · unfold Triangle.init
    by_cases h1 : pa.length = pb.length ∧ pb.length = pc.length
    · by_cases h2 : are_collinear pa pb pc <;> simp [h1, h2]
    · simp [h1]
  · have hcol : are_collinear [0, 0] [0, 1] [0, 2] = true := by
      simp only [are_collinear, parallelB, decide_eq_true_eq]
      intro i hi j hj
      rw [List.mem_range] at hi hj
      simp only [length_vsub, vsub] at hi hj
      norm_num at hi hj
      interval_cases i <;> interval_cases j <;> norm_num [minor, coord, vsub]
    unfold Triangle.init
    simp [hcol]
  · unfold Triangle.init
    norm_num

/-- C7: `orthocenter` is the intersection of the altitude lines from
vertices A and B, and on the spec's two examples it returns `(0, 0)` and
`(1, 0.5)` respectively. -/
theorem C7_orthocenter :
    (∀ t : Triangle,
      t.orthocenter = (t.altitude 'A').bind fun la => (t.altitude 'B').bind la.intersect_line) ∧
    Triangle.orthocenter ⟨[0, 0], [0, 1], [1, 0]⟩ = .ok [0, 0] ∧
    Triangle.orthocenter ⟨[0, 0], [1, 2], [2, 0]⟩ = .ok [1, 1/2] := by
  refine ⟨fun t => rfl, ?_, ?_⟩
  · simp [Triangle.orthocenter, Triangle.altitude, Triangle.lines, Line.from_points,
      Line.project_point, Line.intersect_line, vcross, vsub, vadd, smul, dot, dot3,
      normSq3, prom, coord, cross3, bind, Except.bind]
  · simp [Triangle.orthocenter, Triangle.altitude, Triangle.lines, Line.from_points,
      Line.project_point, Line.intersect_line, vcross, vsub, vadd, smul, dot, dot3,
      normSq3, prom, coord, cross3, bind, Except.bind]
    norm_num

/-- C8: for a valid triangle of dimension at most 3, `normal` is the
cross product of `vector_ab = B - A` with `vector_ac = C - A` (2D promoted
to 3D with a zero third coordinate), exchanging any two vertices negates
the normal, and the normal of `(0,0), (1,0), (0,1)` is `(0, 0, 1)`. -/
theorem C8_normal_cross_product (pa pb pc : Pt) (t : Triangle)
    (h : Triangle.init pa pb pc = .ok t) (hd : t.dimension ≤ 3) :
    t.normal = vcross (vsub pb pa) (vsub pc pa) ∧
    (∃ n : V3, t.normal = .ok n ∧
      Triangle.normal ⟨pa, pc, pb⟩ = .ok (neg3 n) ∧
      Triangle.normal ⟨pb, pa, pc⟩ = .ok (neg3 n) ∧
      Triangle.normal ⟨pc, pb, pa⟩ = .ok (neg3 n)) ∧
    Triangle.normal ⟨[0, 0], [1, 0], [0, 1]⟩ = .ok (0, 0, 1) := by
  have h2 := two_le_length_of_init_ok pa pb pc t h
  obtain ⟨⟨hab, hbc⟩, hcol, ht⟩ := (init_ok_iff pa pb pc t).mp h
  subst ht
  have hd3 : pa.length ≤ 3 := hd
  have hdim : pa.length = 2 ∨ pa.length = 3 := by omega
  have hbl : pb.length = pa.length := hab.symm
  have hcl : pc.length = pa.length := by omega
  have hv : ∀ x y : Pt, x.length = pa.length → y.length = pa.length →
      (vsub x y).length = pa.length := by
    intro x y hx hy
    rw [length_vsub, hx, hy, min_self]
  have hok : ∀ u v : Pt, u.length = pa.length → v.length = pa.length →
      vcross u v = .ok (cross3 (prom u) (prom v)) := by
    intro u v hu hv'
    have hc : (u.length = 2 ∨ u.length = 3) ∧ (v.length = 2 ∨ v.length = 3) := by
      rw [hu, hv']
      exact ⟨hdim, hdim⟩
    unfold vcross
    rw [if_pos hc]
  refine ⟨rfl, ⟨cross3 (prom (vsub pb pa)) (prom (vsub pc pa)), ?_, ?_, ?_, ?_⟩, ?_⟩
  · exact hok _ _ (hv pb pa hbl rfl) (hv pc pa hcl rfl)
  · show vcross (vsub pc pa) (vsub pb pa) = _
    rw [hok _ _ (hv pc pa hcl rfl) (hv pb pa hbl rfl), cross3_anticomm]
  · show vcross (vsub pa pb) (vsub pc pb) = _
    rw [hok _ _ (hv pa pb rfl hbl) (hv pc pb hcl hbl),
      prom_vsub pa pb (by omega), prom_vsub pc pb (by omega),
      cross3_sub_swap_first, ← prom_vsub pb pa (by omega), ← prom_vsub pc pa (by omega)]
  · show vcross (vsub pb pc) (vsub pa pc) = _
    rw [hok _ _ (hv pb pc hbl hcl) (hv pa pc rfl hcl),
      prom_vsub pb pc (by omega), prom_vsub pa pc (by omega),
      cross3_sub_swap_outer, ← prom_vsub pb pa (by omega), ← prom_vsub pc pa (by omega)]
  · simp [Triangle.normal, vcross, vsub, prom, coord, cross3]

/-- Witness for C8 at the concrete triangle `(0,0), (1,0), (0,1)`. -/
theorem C8_witness :
    Triangle.init [0, 0] [1, 0] [0, 1] = .ok triDoc ∧ triDoc.dimension ≤ 3 ∧
    triDoc.normal = vcross (vsub [1, 0] [0, 0]) (vsub [0, 1] [0, 0]) :=
  ⟨initDoc_ok, by decide,
    (C8_normal_cross_product [0, 0] [1, 0] [0, 1] triDoc initDoc_ok (by decide)).1⟩

/-- C9: for a valid triangle of dimension at most 3, `area` is half the
Euclidean norm of `normal()`, and it is strictly positive. -/
theorem C9_area_positive (pa pb pc : Pt) (t : Triangle)
    (h : Triangle.init pa pb pc = .ok t) (hd : t.dimension ≤ 3) :
    ∃ n : V3, t.normal = .ok n ∧
      t.area = .ok (0.5 * Real.sqrt ((normSq3 n : ℚ) : ℝ)) ∧
      0 < (0.5 * Real.sqrt ((normSq3 n : ℚ) : ℝ) : ℝ) := by
  have h2 := two_le_length_of_init_ok pa pb pc t h
  obtain ⟨⟨hab, hbc⟩, hcol, ht⟩ := (init_ok_iff pa pb pc t).mp h
  subst ht
  have hd3 : pa.length ≤ 3 := hd
  have hdim : pa.length = 2 ∨ pa.length = 3 := by omega
  have hbl : pb.length = pa.length := hab.symm
  have hcl : pc.length = pa.length := by omega
  have hvb : (vsub pb pa).length = pa.length := by
    rw [length_vsub, hbl, min_self]
  have hvc : (vsub pc pa).length = pa.length := by
    rw [length_vsub, hcl, min_self]
  have hn : Triangle.normal ⟨pa, pb, pc⟩ =
      .ok (cross3 (prom (vsub pb pa)) (prom (vsub pc pa))) := by
    have hc : ((vsub pb pa).length = 2 ∨ (vsub pb pa).length = 3) ∧
        ((vsub pc pa).length = 2 ∨ (vsub pc pa).length = 3) := by
      rw [hvb, hvc]
      exact ⟨hdim, hdim⟩
    show vcross _ _ = _
    unfold vcross
    rw [if_pos hc]
  refine ⟨cross3 (prom (vsub pb pa)) (prom (vsub pc pa)), hn, ?_, ?_⟩
  · unfold Triangle.area
    rw [hn]
    rfl
  · have hpar : parallelB (vsub pb pa) (vsub pc pa) = false := hcol
    have hne := cross3_prom_ne_zero (vsub pb pa) (vsub pc pa)
      (by omega) (by omega) hpar
    have hpos := normSq3_pos _ hne
    have hcast : (0 : ℝ) < ((normSq3 (cross3 (prom (vsub pb pa)) (prom (vsub pc pa))) : ℚ) : ℝ) := by
      exact_mod_cast hpos
    have hs := Real.sqrt_pos.mpr hcast
    nlinarith

/-- Witness for C9 at the concrete triangle `(0,0), (1,0), (0,1)`. -/
theorem C9_witness :
    Triangle.init [0, 0] [1, 0] [0, 1] = .ok triDoc ∧ triDoc.dimension ≤ 3 ∧
    (∃ n : V3, triDoc.normal = .ok n ∧
      triDoc.area = .ok (0.5 * Real.sqrt ((normSq3 n : ℚ) : ℝ)) ∧
      0 < (0.5 * Real.sqrt ((normSq3 n : ℚ) : ℝ) : ℝ)) :=
  ⟨initDoc_ok, by decide,
    C9_area_positive [0, 0] [1, 0] [0, 1] triDoc initDoc_ok (by decide)⟩

/-- C10: every triangle accepted by construction has pairwise distinct
vertices and three strictly positive side lengths, so the law-of-cosines
denominators `2bc`, `2ac`, `2ab` are non-zero (indeed positive). -/
theorem C10_sides_positive (pa pb pc : Pt) (t : Triangle)
    (h : Triangle.init pa pb pc = .ok t) :
    (pa ≠ pb ∧ pb ≠ pc ∧ pa ≠ pc) ∧
    (∃ la lb lc : ℝ,
      t.side_length 'a' = .ok la ∧ t.side_length 'b' = .ok lb ∧
      t.side_length 'c' = .ok lc ∧
      0 < la ∧ 0 < lb ∧ 0 < lc ∧
      0 < 2 * lb * lc ∧ 0 < 2 * la * lc ∧ 0 < 2 * la * lb) := by
  obtain ⟨⟨hab, hbc⟩, hcol, ht⟩ := (init_ok_iff pa pb pc t).mp h
  subst ht
  have hnc : ∀ hp : parallelB (vsub pb pa) (vsub pc pa) = true, False := by
    intro hp
    simp [are_collinear, hp] at hcol
  have hne_ab : pa ≠ pb := by
    intro he
    apply hnc
    apply parallelB_true_of_left_zero
    intro i
    rw [he, coord_vsub pb pb rfl i, sub_self]
  have hne_bc : pb ≠ pc := by
    intro he
    apply hnc
    rw [he]
    exact parallelB_self_true _
  have hne_ac : pa ≠ pc := by
    intro he
    apply hnc
    apply parallelB_true_of_right_zero
    intro i
    rw [he, coord_vsub pc pc rfl i, sub_self]
  have hla : 0 < distance pb pc := distance_pos pb pc hbc hne_bc
  have hlb : 0 < distance pa pc := distance_pos pa pc (hab.trans hbc) hne_ac
  have hlc : 0 < distance pa pb := distance_pos pa pb hab hne_ab
  refine ⟨⟨hne_ab, hne_bc, hne_ac⟩,
    distance pb pc, distance pa pc, distance pa pb, rfl, rfl, rfl,
    hla, hlb, hlc, ?_, ?_, ?_⟩
  · exact mul_pos (mul_pos two_pos hlb) hlc
  · exact mul_pos (mul_pos two_pos hla) hlc
  · exact mul_pos (mul_pos two_pos hla) hlb

/-- Witness for C10 at the concrete triangle `(0,0), (1,0), (0,1)`. -/
theorem C10_witness :
    Triangle.init [0, 0] [1, 0] [0, 1] = .ok triDoc ∧
    ((([0, 0] : Pt) ≠ [1, 0] ∧ ([1, 0] : Pt) ≠ [0, 1] ∧ ([0, 0] : Pt) ≠ [0, 1]) ∧
     (∃ la lb lc : ℝ,
       triDoc.side_length 'a' = .ok la ∧ triDoc.side_length 'b' = .ok lb ∧
       triDoc.side_length 'c' = .ok lc ∧
       0 < la ∧ 0 < lb ∧ 0 < lc ∧
       0 < 2 * lb * lc ∧ 0 < 2 * la * lc ∧ 0 < 2 * la * lb)) :=
  ⟨initDoc_ok, C10_sides_positive [0, 0] [1, 0] [0, 1] triDoc initDoc_ok⟩

end SkSpatial
